import Mathlib

/-!
# SPIFFE auth method for Vault Agent: construction, authentication, gate and fetch

A shallow embedding of `spiffe.go`.  Go's `interface{}` values become the
inductive type `Value`, `map[string]interface{}` becomes an association list
read with `List.lookup`, Go's multi-value returns become tuples of options
(`none` is Go's `nil`), and the method receiver `*spiffeMethod` becomes an
explicit state that is passed in and returned.  Logging calls have no effect on
any returned value or on the engine state and are left out; `conf.Logger` is
taken to be a usable logger.  The external call `workloadapi.FetchJWTSVID` is
not part of this repository: its outcome is an argument of `fetchToken`.
-/

namespace VaultAuthSpiffe

/-- A Go `interface{}` value as it can occur in the option map. -/
inductive Value where
  | nil
  | str (s : String)
  | int (n : Int)
  | bool (b : Bool)
  deriving DecidableEq, Repr

/-- The Go type assertion `v.(string)`: the string and `ok = true`, or `ok = false`. -/
def Value.asString : Value → Option String
  | .str s => some s
  | _ => none

/-- Go's `map[string]interface{}`; a key is read with `List.lookup`. -/
abbrev ConfigMap := List (String × Value)

/-- Go's `http.Header`. -/
abbrev Header := List (String × List String)

/-- The fields of `auth.AuthConfig` that `NewSPIFFEAuthMethod` reads
(`Config = none` is the nil map). -/
structure AuthConfig where
  MountPath : String
  Config : Option ConfigMap
  deriving DecidableEq, Repr

/-- Go's `time.Ticker`: its period in seconds and whether `Stop` was called. -/
structure Ticker where
  period : Nat
  stopped : Bool
  deriving DecidableEq, Repr

/-- The engine `spiffeMethod`.  A channel that is only ever closed is the
Boolean "has been closed" (`stopCh`, `doneCh`, `credSuccessGate`), `credsFound`
counts the values sent on the notification channel, `once` says whether the
`sync.Once` has fired, `latestToken` is the string held by the `atomic.Value`
and `ticker` is `none` before `time.NewTicker` is called. -/
structure spiffeMethod where
  mountPath : String
  role : String
  audience : String
  credsFound : Nat
  stopCh : Bool
  doneCh : Bool
  credSuccessGate : Bool
  once : Bool
  latestToken : String
  ticker : Option Ticker
  deriving DecidableEq, Repr

/-- Constructor `NewSPIFFEAuthMethod`: the pair (engine, error) that Go returns. -/
def NewSPIFFEAuthMethod (conf : Option AuthConfig) : Option spiffeMethod × Option String :=
  match conf with
  | none => (none, some "empty config")
  | some conf =>
    match conf.Config with
    | none => (none, some "empty config data")
    | some cfg =>
      let j : spiffeMethod :=
        { mountPath := conf.MountPath
          role := ""
          audience := ""
          credsFound := 0
          stopCh := false
          doneCh := false
          credSuccessGate := false
          once := false
          latestToken := ""
          ticker := none }
      match cfg.lookup "role" with
      | none => (none, some "missing 'role' value")
      | some roleRaw =>
        match roleRaw.asString with
        | none => (none, some "could not convert 'role' config value to string")
        | some role =>
          let j := { j with role := role }
          match cfg.lookup "audience" with
          | none => (none, some "missing 'audience' value")
          | some audienceRaw =>
            match audienceRaw.asString with
            | none => (none, some "could not convert 'audience' config value to string")
            | some audience =>
              let j := { j with audience := audience }
              if j.role = "" then (none, some "'role' value is empty")
              else if j.audience = "" then (none, some "'audience' value is empty")
              else (some { j with ticker := some { period := 10, stopped := false } }, none)

/-- Method `Authenticate`: (path, headers, login payload, error). -/
def Authenticate (j : spiffeMethod) :
    String × Option Header × Option ConfigMap × Option String :=
  let latestToken := j.latestToken
  if latestToken = "" then
    ("", none, none, some "spiffe jwt-svid is not available")
  else
    (j.mountPath ++ "/login", none,
      some [("role", Value.str j.role), ("jwt", Value.str latestToken)], none)

/-- Method `CredSuccess`: the `sync.Once` runs `close(j.credSuccessGate)` the
first time only. -/
def CredSuccess (j : spiffeMethod) : spiffeMethod :=
  if j.once then j else { j with once := true, credSuccessGate := true }

/-- Method `fetchToken`.  The argument `res` is what `workloadapi.FetchJWTSVID`
returned: `.ok t` with `t = svid.Marshal()`, or `.error e`.  The send
`j.credsFound <- struct{}{}` is counted in `credsFound`. -/
def fetchToken (j : spiffeMethod) (res : Except String String) : spiffeMethod :=
  match res with
  | .error _ => j
  | .ok svid =>
    let latestToken := j.latestToken
    if svid ≠ latestToken then
      let j := { j with latestToken := svid }
      if j.credSuccessGate then { j with credsFound := j.credsFound + 1 } else j
    else j

/-- Method `Shutdown` up to its blocking receive `<-j.doneCh`: `j.ticker.Stop()`
and `close(j.stopCh)`. -/
def Shutdown (j : spiffeMethod) : spiffeMethod :=
  { j with
    ticker := j.ticker.map fun t => { t with stopped := true }
    stopCh := true }

/-- The deferred `close(j.doneCh)` that `runWatcher` runs when its loop returns. -/
def watcherDone (j : spiffeMethod) : spiffeMethod :=
  { j with doneCh := true }

/-- The operations that act on an engine after its construction. -/
inductive Op where
  | fetch (res : Except String String)
  | credSuccess
  | authenticate
  | shutdown
  | watcherDone

/-- The engine state after one operation (`Authenticate` only reads it). -/
def Op.apply (j : spiffeMethod) : Op → spiffeMethod
  | .fetch res => fetchToken j res
  | .credSuccess => CredSuccess j
  | .authenticate => j
  | .shutdown => Shutdown j
  | .watcherDone => VaultAuthSpiffe.watcherDone j

/-- The engine state after a sequence of operations, first to last. -/
def run (j : spiffeMethod) (ops : List Op) : spiffeMethod :=
  ops.foldl Op.apply j

/-- An operation that is not a fetch with a successful provider call. -/
def Op.noFetchSuccess : Op → Bool
  | .fetch (.ok _) => false
  | _ => true

/-- Calling `CredSuccess` `n` times in a row. -/
def CredSuccessTimes (j : spiffeMethod) : Nat → spiffeMethod
  | 0 => j
  | n + 1 => CredSuccessTimes (CredSuccess j) n

/-! ## Construction: one lemma per return statement -/

theorem new_nil_conf : NewSPIFFEAuthMethod none = (none, some "empty config") := rfl

theorem new_nil_map (c : AuthConfig) (h : c.Config = none) :
    NewSPIFFEAuthMethod (some c) = (none, some "empty config data") := by
  simp [NewSPIFFEAuthMethod, h]

theorem new_missing_role (c : AuthConfig) (cfg : ConfigMap) (h : c.Config = some cfg)
    (hr : cfg.lookup "role" = none) :
    NewSPIFFEAuthMethod (some c) = (none, some "missing 'role' value") := by
  simp [NewSPIFFEAuthMethod, h, hr]

theorem new_role_not_string (c : AuthConfig) (cfg : ConfigMap) (v : Value)
    (h : c.Config = some cfg) (hr : cfg.lookup "role" = some v) (hv : ∀ s, v ≠ Value.str s) :
    NewSPIFFEAuthMethod (some c)
      = (none, some "could not convert 'role' config value to string") := by
  cases v with
  | str s => exact absurd rfl (hv s)
  | nil => simp [NewSPIFFEAuthMethod, h, hr, Value.asString]
  | int n => simp [NewSPIFFEAuthMethod, h, hr, Value.asString]
  | bool b => simp [NewSPIFFEAuthMethod, h, hr, Value.asString]

theorem new_missing_audience (c : AuthConfig) (cfg : ConfigMap) (r : String)
    (h : c.Config = some cfg) (hr : cfg.lookup "role" = some (Value.str r))
    (ha : cfg.lookup "audience" = none) :
    NewSPIFFEAuthMethod (some c) = (none, some "missing 'audience' value") := by
  simp [NewSPIFFEAuthMethod, h, hr, ha, Value.asString]

theorem new_audience_not_string (c : AuthConfig) (cfg : ConfigMap) (r : String) (v : Value)
    (h : c.Config = some cfg) (hr : cfg.lookup "role" = some (Value.str r))
    (ha : cfg.lookup "audience" = some v) (hv : ∀ s, v ≠ Value.str s) :
    NewSPIFFEAuthMethod (some c)
      = (none, some "could not convert 'audience' config value to string") := by
  cases v with
  | str s => exact absurd rfl (hv s)
  | nil => simp [NewSPIFFEAuthMethod, h, hr, ha, Value.asString]
  | int n => simp [NewSPIFFEAuthMethod, h, hr, ha, Value.asString]
  | bool b => simp [NewSPIFFEAuthMethod, h, hr, ha, Value.asString]

theorem new_role_empty (c : AuthConfig) (cfg : ConfigMap) (a : String)
    (h : c.Config = some cfg) (hr : cfg.lookup "role" = some (Value.str ""))
    (ha : cfg.lookup "audience" = some (Value.str a)) :
    NewSPIFFEAuthMethod (some c) = (none, some "'role' value is empty") := by
  simp [NewSPIFFEAuthMethod, h, hr, ha, Value.asString]

theorem new_audience_empty (c : AuthConfig) (cfg : ConfigMap) (r : String)
    (h : c.Config = some cfg) (hr : cfg.lookup "role" = some (Value.str r)) (hne : r ≠ "")
    (ha : cfg.lookup "audience" = some (Value.str "")) :
    NewSPIFFEAuthMethod (some c) = (none, some "'audience' value is empty") := by
  simp [NewSPIFFEAuthMethod, h, hr, ha, Value.asString, hne]

theorem new_ok (c : AuthConfig) (cfg : ConfigMap) (r a : String)
    (h : c.Config = some cfg) (hr : cfg.lookup "role" = some (Value.str r)) (hne : r ≠ "")
    (ha : cfg.lookup "audience" = some (Value.str a)) (hae : a ≠ "") :
    NewSPIFFEAuthMethod (some c)
      = (some
          { mountPath := c.MountPath
            role := r
            audience := a
            credsFound := 0
            stopCh := false
            doneCh := false
            credSuccessGate := false
            once := false
            latestToken := ""
            ticker := some { period := 10, stopped := false } }, none) := by
  simp [NewSPIFFEAuthMethod, h, hr, ha, Value.asString, hne, hae]

theorem value_str_or_not (v : Value) : (∃ s, v = Value.str s) ∨ ∀ s, v ≠ Value.str s := by
  cases v with
  | str s => exact Or.inl ⟨s, rfl⟩
  | nil => exact Or.inr (fun s h => by cases h)
  | int n => exact Or.inr (fun s h => by cases h)
  | bool b => exact Or.inr (fun s h => by cases h)

/-- Every construction either fails with no engine, or succeeds from a map that
holds non-empty strings under both keys and returns the engine of `new_ok`. -/
theorem new_cases (conf : Option AuthConfig) :
    (∃ msg, NewSPIFFEAuthMethod conf = (none, some msg) ∧
      ¬ ∃ c cfg r a, conf = some c ∧ c.Config = some cfg ∧
        cfg.lookup "role" = some (Value.str r) ∧ r ≠ "" ∧
        cfg.lookup "audience" = some (Value.str a) ∧ a ≠ "") ∨
    (∃ c cfg r a, conf = some c ∧ c.Config = some cfg ∧
        cfg.lookup "role" = some (Value.str r) ∧ r ≠ "" ∧
        cfg.lookup "audience" = some (Value.str a) ∧ a ≠ "" ∧
        NewSPIFFEAuthMethod conf
          = (some
              { mountPath := c.MountPath
                role := r
                audience := a
                credsFound := 0
                stopCh := false
                doneCh := false
                credSuccessGate := false
                once := false
                latestToken := ""
                ticker := some { period := 10, stopped := false } }, none)) := by
  cases conf with
  | none =>
    exact Or.inl ⟨_, new_nil_conf, fun ⟨_, _, _, _, h, _⟩ => by cases h⟩
  | some c =>
    cases hc : c.Config with
    | none =>
      refine Or.inl ⟨_, new_nil_map c hc, ?_⟩
      rintro ⟨c', cfg, _, _, h1, h2, _⟩
      cases h1
      rw [hc] at h2
      cases h2
    | some cfg =>
      cases hr : cfg.lookup "role" with
      | none =>
        refine Or.inl ⟨_, new_missing_role c cfg hc hr, ?_⟩
        rintro ⟨c', cfg', r, _, h1, h2, h3, _⟩
        cases h1
        rw [hc] at h2
        cases h2
        rw [hr] at h3
        cases h3
      | some v =>
        rcases value_str_or_not v with ⟨r, rfl⟩ | hv
        · cases ha : cfg.lookup "audience" with
          | none =>
            refine Or.inl ⟨_, new_missing_audience c cfg r hc hr ha, ?_⟩
            rintro ⟨c', cfg', _, a, h1, h2, _, _, h5, _⟩
            cases h1
            rw [hc] at h2
            cases h2
            rw [ha] at h5
            cases h5
          | some w =>
            rcases value_str_or_not w with ⟨a, rfl⟩ | hw
            · by_cases hre : r = ""
              · subst hre
                refine Or.inl ⟨_, new_role_empty c cfg a hc hr ha, ?_⟩
                rintro ⟨c', cfg', r', _, h1, h2, h3, h4, _⟩
                cases h1
                rw [hc] at h2
                cases h2
                rw [hr] at h3
                cases h3
                exact h4 rfl
              · by_cases hae : a = ""
                · subst hae
                  refine Or.inl ⟨_, new_audience_empty c cfg r hc hr hre ha, ?_⟩
                  rintro ⟨c', cfg', _, a', h1, h2, _, _, h5, h6⟩
                  cases h1
                  rw [hc] at h2
                  cases h2
                  rw [ha] at h5
                  cases h5
                  exact h6 rfl
                · exact Or.inr ⟨c, cfg, r, a, rfl, hc, hr, hre, ha, hae,
                    new_ok c cfg r a hc hr hre ha hae⟩
            · refine Or.inl ⟨_, new_audience_not_string c cfg r w hc hr ha hw, ?_⟩
              rintro ⟨c', cfg', _, a', h1, h2, _, _, h5, _⟩
              cases h1
              rw [hc] at h2
              cases h2
              rw [ha] at h5
              cases h5
              exact hw a' rfl
        · refine Or.inl ⟨_, new_role_not_string c cfg v hc hr hv, ?_⟩
          rintro ⟨c', cfg', r', _, h1, h2, h3, _⟩
          cases h1
          rw [hc] at h2
          cases h2
          rw [hr] at h3
          cases h3
          exact hv r' rfl

/-! ## Construction -/

/-- C1: `NewSPIFFEAuthMethod` returns an engine and no error exactly when the
configuration is present, its option map is present, and the map holds non-empty
strings under both "role" and "audience"; in every other case it returns an error
and no engine; an engine that is returned holds the role, audience and mount path
of the input and an empty cached credential. -/
theorem newSPIFFEAuthMethod_succeeds_iff (conf : Option AuthConfig) :
    ((∃ j, NewSPIFFEAuthMethod conf = (some j, none)) ↔
      ∃ c cfg r a, conf = some c ∧ c.Config = some cfg ∧
        cfg.lookup "role" = some (Value.str r) ∧ r ≠ "" ∧
        cfg.lookup "audience" = some (Value.str a) ∧ a ≠ "") ∧
    ((¬ ∃ j, NewSPIFFEAuthMethod conf = (some j, none)) →
      ∃ msg, NewSPIFFEAuthMethod conf = (none, some msg)) ∧
    (∀ j, (NewSPIFFEAuthMethod conf).1 = some j →
      (NewSPIFFEAuthMethod conf).2 = none ∧
      ∃ c cfg, conf = some c ∧ c.Config = some cfg ∧
        cfg.lookup "role" = some (Value.str j.role) ∧
        cfg.lookup "audience" = some (Value.str j.audience) ∧
        j.mountPath = c.MountPath ∧ j.latestToken = "") := by
  rcases new_cases conf with ⟨msg, hmsg, hnot⟩ | ⟨c, cfg, r, a, h1, h2, h3, h4, h5, h6, hok⟩
  · refine ⟨⟨?_, fun h => absurd h hnot⟩, fun _ => ⟨msg, hmsg⟩, ?_⟩
    · rintro ⟨j, hj⟩
      rw [hmsg] at hj
      cases hj
    · intro j hj
      rw [hmsg] at hj
      cases hj
  · refine ⟨⟨fun _ => ⟨c, cfg, r, a, h1, h2, h3, h4, h5, h6⟩, fun _ => ⟨_, hok⟩⟩, ?_, ?_⟩
    · intro hno
      exact absurd ⟨_, hok⟩ hno
    · intro j hj
      rw [hok] at hj ⊢
      cases hj
      exact ⟨rfl, c, cfg, h1, h2, h3, h5, rfl, rfl⟩

/-- The input of the test "should create a new spiffe auth method" succeeds. -/
theorem newSPIFFEAuthMethod_succeeds_iff_witness :
    ∃ j, NewSPIFFEAuthMethod
      (some ⟨"spiffe", some [("role", Value.str "test-role"),
        ("audience", Value.str "test-audience")]⟩) = (some j, none) :=
  (newSPIFFEAuthMethod_succeeds_iff _).1.mpr
    ⟨_, _, "test-role", "test-audience", rfl, rfl, by decide, by decide, by decide, by decide⟩

/-- C2: `NewSPIFFEAuthMethod` returns no engine and a fixed message for the first
condition that applies: nil configuration, nil option map, no "role" key, a
"role" value that is not a string, and (with a string "role") an "audience" value
that is present but not a string. -/
theorem newSPIFFEAuthMethod_error_messages (conf : Option AuthConfig) :
    (conf = none → NewSPIFFEAuthMethod conf = (none, some "empty config")) ∧
    (∀ c, conf = some c → c.Config = none →
      NewSPIFFEAuthMethod conf = (none, some "empty config data")) ∧
    (∀ c cfg, conf = some c → c.Config = some cfg → cfg.lookup "role" = none →
      NewSPIFFEAuthMethod conf = (none, some "missing 'role' value")) ∧
    (∀ c cfg v, conf = some c → c.Config = some cfg → cfg.lookup "role" = some v →
      (∀ s, v ≠ Value.str s) →
      NewSPIFFEAuthMethod conf
        = (none, some "could not convert 'role' config value to string")) ∧
    (∀ c cfg r v, conf = some c → c.Config = some cfg →
      cfg.lookup "role" = some (Value.str r) → cfg.lookup "audience" = some v →
      (∀ s, v ≠ Value.str s) →
      NewSPIFFEAuthMethod conf
        = (none, some "could not convert 'audience' config value to string")) := by
  refine ⟨?_, ?_, ?_, ?_, ?_⟩
  · rintro rfl
    exact new_nil_conf
  · rintro c rfl h
    exact new_nil_map c h
  · rintro c cfg rfl h hr
    exact new_missing_role c cfg h hr
  · rintro c cfg v rfl h hr hv
    exact new_role_not_string c cfg v h hr hv
  · rintro c cfg r v rfl h hr ha hv
    exact new_audience_not_string c cfg r v h hr ha hv

/-- The five inputs of the tests give the five messages. -/
theorem newSPIFFEAuthMethod_error_messages_witness :
    NewSPIFFEAuthMethod none = (none, some "empty config") ∧
    NewSPIFFEAuthMethod (some ⟨"", none⟩) = (none, some "empty config data") ∧
    NewSPIFFEAuthMethod (some ⟨"", some []⟩) = (none, some "missing 'role' value") ∧
    NewSPIFFEAuthMethod (some ⟨"", some [("role", Value.int 123)]⟩)
      = (none, some "could not convert 'role' config value to string") ∧
    NewSPIFFEAuthMethod
        (some ⟨"", some [("role", Value.str "test-role"), ("audience", Value.int 123)]⟩)
      = (none, some "could not convert 'audience' config value to string") :=
  ⟨(newSPIFFEAuthMethod_error_messages none).1 rfl,
   (newSPIFFEAuthMethod_error_messages (some ⟨"", none⟩)).2.1 _ rfl rfl,
   (newSPIFFEAuthMethod_error_messages (some ⟨"", some []⟩)).2.2.1 _ _ rfl rfl rfl,
   (newSPIFFEAuthMethod_error_messages
      (some ⟨"", some [("role", Value.int 123)]⟩)).2.2.2.1 _ _ (Value.int 123) rfl rfl
      (by decide) (fun s h => by cases h),
   (newSPIFFEAuthMethod_error_messages
      (some ⟨"", some [("role", Value.str "test-role"), ("audience", Value.int 123)]⟩)).2.2.2.2
      _ _ "test-role" (Value.int 123) rfl rfl (by decide) (by decide) (fun s h => by cases h)⟩

/-- C3, as stated, fails: with an empty "role" and the "audience" value 123 the
message is the conversion error of "audience", not the empty-role message. -/
theorem role_empty_counterexample :
    (⟨"spiffe", some [("role", Value.str ""), ("audience", Value.int 123)]⟩ : AuthConfig).Config
        = some [("role", Value.str ""), ("audience", Value.int 123)] ∧
    List.lookup "role" [("role", Value.str ""), ("audience", Value.int 123)]
        = some (Value.str "") ∧
    NewSPIFFEAuthMethod
        (some ⟨"spiffe", some [("role", Value.str ""), ("audience", Value.int 123)]⟩)
      = (none, some "could not convert 'audience' config value to string") ∧
    NewSPIFFEAuthMethod
        (some ⟨"spiffe", some [("role", Value.str ""), ("audience", Value.int 123)]⟩)
      ≠ (none, some "'role' value is empty") := by
  decide

/-- C3, amended: when the option map holds the empty string under "role" and a
string (empty or not) under "audience", `NewSPIFFEAuthMethod` returns no engine
and the error "'role' value is empty". -/
theorem newSPIFFEAuthMethod_role_empty (c : AuthConfig) (cfg : ConfigMap) (a : String)
    (h : c.Config = some cfg) (hr : cfg.lookup "role" = some (Value.str ""))
    (ha : cfg.lookup "audience" = some (Value.str a)) :
    NewSPIFFEAuthMethod (some c) = (none, some "'role' value is empty") :=
  new_role_empty c cfg a h hr ha

/-- An empty role with the audience "test-audience" gives the empty-role message. -/
theorem newSPIFFEAuthMethod_role_empty_witness :
    NewSPIFFEAuthMethod
        (some ⟨"spiffe", some [("role", Value.str ""), ("audience", Value.str "test-audience")]⟩)
      = (none, some "'role' value is empty") :=
  newSPIFFEAuthMethod_role_empty _ _ "test-audience" rfl (by decide) (by decide)

/-- C4, at the input of the test "should not return error if audience is
missing": the code returns no engine and the error "missing 'audience' value". -/
theorem newSPIFFEAuthMethod_audience_missing :
    NewSPIFFEAuthMethod (some ⟨"", some [("role", Value.str "test-role")]⟩)
      = (none, some "missing 'audience' value") := by
  decide

/-! ## State after construction and under the operations -/

theorem new_engine_init (conf : Option AuthConfig) (j : spiffeMethod)
    (h : NewSPIFFEAuthMethod conf = (some j, none)) :
    j.latestToken = "" ∧ j.credSuccessGate = false ∧ j.once = false ∧ j.credsFound = 0 := by
  rcases new_cases conf with ⟨msg, hmsg, _⟩ | ⟨c, cfg, r, a, _, _, _, _, _, _, hok⟩
  · rw [hmsg] at h
    cases h
  · rw [hok] at h
    cases h
    exact ⟨rfl, rfl, rfl, rfl⟩

theorem apply_latestToken (j : spiffeMethod) (op : Op) (h : op.noFetchSuccess = true) :
    (op.apply j).latestToken = j.latestToken := by
  cases op with
  | fetch res =>
    cases res with
    | error e => rfl
    | ok v => simp [Op.noFetchSuccess] at h
  | credSuccess =>
    simp only [Op.apply, CredSuccess]
    split <;> rfl
  | authenticate => rfl
  | shutdown => rfl
  | watcherDone => rfl

theorem run_latestToken (ops : List Op) (j : spiffeMethod)
    (h : ∀ op ∈ ops, op.noFetchSuccess = true) :
    (run j ops).latestToken = j.latestToken := by
  induction ops generalizing j with
  | nil => rfl
  | cons op rest ih =>
    have h1 := apply_latestToken j op (h op (List.mem_cons_self _ _))
    have h2 := ih (op.apply j) (fun o ho => h o (List.mem_cons_of_mem _ ho))
    simp only [run, List.foldl_cons] at h2 ⊢
    rw [h2, h1]

theorem fetchToken_gate (j : spiffeMethod) (res : Except String String) :
    (fetchToken j res).credSuccessGate = j.credSuccessGate ∧
    (fetchToken j res).once = j.once := by
  cases res with
  | error e => exact ⟨rfl, rfl⟩
  | ok v =>
    simp only [fetchToken]
    split
    · split <;> exact ⟨rfl, rfl⟩
    · exact ⟨rfl, rfl⟩

theorem apply_gate_once (j : spiffeMethod) (op : Op) (h : j.once = j.credSuccessGate) :
    (op.apply j).once = (op.apply j).credSuccessGate := by
  cases op with
  | fetch res =>
    have hg := fetchToken_gate j res
    simp only [Op.apply]
    rw [hg.1, hg.2, h]
  | credSuccess =>
    simp only [Op.apply, CredSuccess]
    split
    · exact h
    · rfl
  | authenticate => exact h
  | shutdown => exact h
  | watcherDone => exact h

theorem run_gate_once (ops : List Op) (j : spiffeMethod) (h : j.once = j.credSuccessGate) :
    (run j ops).once = (run j ops).credSuccessGate := by
  induction ops generalizing j with
  | nil => exact h
  | cons op rest ih =>
    have h2 := ih (op.apply j) (apply_gate_once j op h)
    simpa only [run, List.foldl_cons] using h2

theorem apply_gate_open (j : spiffeMethod) (op : Op) (h : j.credSuccessGate = true) :
    (op.apply j).credSuccessGate = true := by
  cases op with
  | fetch res =>
    simp only [Op.apply]
    rw [(fetchToken_gate j res).1, h]
  | credSuccess =>
    simp only [Op.apply, CredSuccess]
    split
    · exact h
    · rfl
  | authenticate => exact h
  | shutdown => exact h
  | watcherDone => exact h

theorem apply_gate_closed (j : spiffeMethod) (op : Op) (hop : op ≠ Op.credSuccess)
    (h : j.credSuccessGate = false) : (op.apply j).credSuccessGate = false := by
  cases op with
  | fetch res =>
    simp only [Op.apply]
    rw [(fetchToken_gate j res).1, h]
  | credSuccess => exact absurd rfl hop
  | authenticate => exact h
  | shutdown => exact h
  | watcherDone => exact h

theorem run_gate_closed (ops : List Op) (j : spiffeMethod)
    (hops : ∀ op ∈ ops, op ≠ Op.credSuccess) (h : j.credSuccessGate = false) :
    (run j ops).credSuccessGate = false := by
  induction ops generalizing j with
  | nil => exact h
  | cons op rest ih =>
    have h1 := apply_gate_closed j op (hops op (List.mem_cons_self _ _)) h
    have h2 := ih (op.apply j) (fun o ho => hops o (List.mem_cons_of_mem _ ho)) h1
    simpa only [run, List.foldl_cons] using h2

theorem credSuccess_twice (j : spiffeMethod) : CredSuccess (CredSuccess j) = CredSuccess j := by
  cases ho : j.once with
  | true => simp [CredSuccess, ho]
  | false => simp [CredSuccess, ho]

theorem credSuccessTimes_succ (n : Nat) (j : spiffeMethod) :
    CredSuccessTimes j (n + 1) = CredSuccess j := by
  induction n generalizing j with
  | zero => rfl
  | succ k ih =>
    have h := ih (CredSuccess j)
    rw [credSuccess_twice] at h
    exact h

/-! ## Authenticate -/

/-- C5: for an engine built from a valid configuration, after any operations
none of which is a fetch with a successful provider call, `Authenticate` fails
with "spiffe jwt-svid is not available", an empty path, nil headers and a nil
payload; and for every engine state `Authenticate` returns an error exactly when
the cached credential is empty. -/
theorem authenticate_unavailable (conf : Option AuthConfig) (j : spiffeMethod)
    (h : NewSPIFFEAuthMethod conf = (some j, none)) (ops : List Op)
    (hops : ∀ op ∈ ops, op.noFetchSuccess = true) :
    Authenticate (run j ops) = ("", none, none, some "spiffe jwt-svid is not available") ∧
    ∀ s : spiffeMethod, (Authenticate s).2.2.2 ≠ none ↔ s.latestToken = "" := by
  constructor
  · have ht : (run j ops).latestToken = "" := by
      rw [run_latestToken ops j hops]
      exact (new_engine_init conf j h).1
    simp [Authenticate, ht]
  · intro s
    by_cases hs : s.latestToken = ""
    · simp [Authenticate, hs]
    · simp [Authenticate, hs]

/-- The engine of the test, after two failed fetches and a `CredSuccess`. -/
theorem authenticate_unavailable_witness :
    Authenticate (run
        ⟨"spiffe", "test-role", "test-audience", 0, false, false, false, false, "",
          some ⟨10, false⟩⟩
        [Op.fetch (.error "no agent"), Op.credSuccess, Op.fetch (.error "no agent")])
      = ("", none, none, some "spiffe jwt-svid is not available") :=
  (authenticate_unavailable
    (some ⟨"spiffe", some [("role", Value.str "test-role"),
      ("audience", Value.str "test-audience")]⟩)
    _ (by decide) _ (by decide)).1

/-- C6: with mount path `m`, role `r` and a non-empty cached credential `c`,
`Authenticate` returns no error, the path `m ++ "/login"`, nil headers and the
payload with the two entries "role" -> `r` and "jwt" -> `c` and no other key. -/
theorem authenticate_cached (j : spiffeMethod) (m r c : String)
    (hm : j.mountPath = m) (hr : j.role = r) (hc : j.latestToken = c) (hne : c ≠ "") :
    Authenticate j
      = (m ++ "/login", none, some [("role", Value.str r), ("jwt", Value.str c)], none) ∧
    ∃ payload, (Authenticate j).2.2.1 = some payload ∧
      payload.map Prod.fst = ["role", "jwt"] ∧
      ∀ k : String, payload.lookup k
        = if k = "role" then some (Value.str r)
          else if k = "jwt" then some (Value.str c) else none := by
  subst hm hr hc
  have hA : Authenticate j
      = (j.mountPath ++ "/login", none,
          some [("role", Value.str j.role), ("jwt", Value.str j.latestToken)], none) := by
    simp [Authenticate, hne]
  refine ⟨hA, [("role", Value.str j.role), ("jwt", Value.str j.latestToken)], by rw [hA],
    rfl, ?_⟩
  intro k
  by_cases h1 : k = "role"
  · subst h1
    simp [List.lookup]
  · by_cases h2 : k = "jwt"
    · subst h2
      simp [List.lookup]
    · have b1 : (k == "role") = false := by simpa using h1
      have b2 : (k == "jwt") = false := by simpa using h2
      simp [List.lookup, b1, b2, h1, h2]

/-- The test "should return login details if token is available". -/
theorem authenticate_cached_witness :
    Authenticate
        ⟨"spiffe", "test-role", "test-audience", 0, false, false, false, false, "test-token",
          some ⟨10, false⟩⟩
      = ("spiffe" ++ "/login", none,
          some [("role", Value.str "test-role"), ("jwt", Value.str "test-token")], none) ∧
    "spiffe" ++ "/login" = "spiffe/login" :=
  ⟨(authenticate_cached _ "spiffe" "test-role" "test-token" rfl rfl rfl (by decide)).1,
    by decide⟩

/-! ## fetchToken -/

/-- C7: a fetch step whose provider call returned `v` leaves the cached
credential equal to `v` and sends one notification exactly when `v` differs from
the previously cached value and the gate is open (and none otherwise); a second
fetch of the same value changes nothing, so both together send at most one
notification; with the gate closed no notification is sent; no field other than
the cached credential and the notification count changes. -/
theorem fetchToken_success (j : spiffeMethod) (v : String) :
    (fetchToken j (.ok v)).latestToken = v ∧
    (fetchToken j (.ok v)).credsFound
      = j.credsFound + (if v ≠ j.latestToken ∧ j.credSuccessGate = true then 1 else 0) ∧
    ((fetchToken j (.ok v)).credsFound = j.credsFound + 1 ↔
      (v ≠ j.latestToken ∧ j.credSuccessGate = true)) ∧
    fetchToken (fetchToken j (.ok v)) (.ok v) = fetchToken j (.ok v) ∧
    (fetchToken (fetchToken j (.ok v)) (.ok v)).credsFound ≤ j.credsFound + 1 ∧
    (j.credSuccessGate = false → (fetchToken j (.ok v)).credsFound = j.credsFound) ∧
    { fetchToken j (.ok v) with latestToken := j.latestToken, credsFound := j.credsFound } = j := by
  have hcount : (fetchToken j (.ok v)).credsFound
      = j.credsFound + (if v ≠ j.latestToken ∧ j.credSuccessGate = true then 1 else 0) := by
    by_cases hv : v = j.latestToken
    · simp [fetchToken, hv]
    · cases hg : j.credSuccessGate with
      | true => simp [fetchToken, hv, hg]
      | false => simp [fetchToken, hv, hg]
  have htok : (fetchToken j (.ok v)).latestToken = v := by
    by_cases hv : v = j.latestToken
    · simp [fetchToken, hv]
    · cases hg : j.credSuccessGate with
      | true => simp [fetchToken, hv, hg]
      | false => simp [fetchToken, hv, hg]
  have hagain : fetchToken (fetchToken j (.ok v)) (.ok v) = fetchToken j (.ok v) := by
    generalize hj : fetchToken j (.ok v) = j2 at htok
    simp [fetchToken, htok]
  refine ⟨htok, hcount, ?_, hagain, ?_, ?_, ?_⟩
  · rw [hcount]
    by_cases hc : v ≠ j.latestToken ∧ j.credSuccessGate = true
    · simp [hc]
    · simp only [if_neg hc, iff_false_right hc]
      omega
  · rw [hagain, hcount]
    split <;> omega
  · intro hg
    rw [hcount]
    simp [hg]
  · rcases j with ⟨mp, r, a, cf, st, dn, g, o, t, tk⟩
    by_cases hv : v = t
    · simp [fetchToken, hv]
    · cases g <;> simp [fetchToken, hv]

/-- The first credential of a new engine is stored without a notification. -/
theorem fetchToken_success_witness :
    (fetchToken
        ⟨"spiffe", "test-role", "test-audience", 0, false, false, false, false, "",
          some ⟨10, false⟩⟩
        (.ok "test-token")).credsFound = 0 :=
  (fetchToken_success
    ⟨"spiffe", "test-role", "test-audience", 0, false, false, false, false, "",
      some ⟨10, false⟩⟩ "test-token").2.2.2.2.2.1 rfl

/-- C8: a fetch step whose provider call failed leaves the whole engine state
unchanged (cached credential, gate, notification count), and `Authenticate`
returns the same result after it as before it. -/
theorem fetchToken_failure (j : spiffeMethod) (e : String) :
    fetchToken j (.error e) = j ∧
    (fetchToken j (.error e)).latestToken = j.latestToken ∧
    (fetchToken j (.error e)).credSuccessGate = j.credSuccessGate ∧
    (fetchToken j (.error e)).credsFound = j.credsFound ∧
    Authenticate (fetchToken j (.error e)) = Authenticate j :=
  ⟨rfl, rfl, rfl, rfl, rfl⟩

/-! ## The success gate -/

/-- C9: the gate of a newly constructed engine is closed and stays closed while
`CredSuccess` is not called; after `CredSuccess` it is open, whatever operations
came before; calling `CredSuccess` one or more extra times gives the same state
as calling it once; an open gate stays open under every operation; and
`CredSuccess` changes nothing but the gate and its `sync.Once`. -/
theorem credSuccess_gate (conf : Option AuthConfig) (j : spiffeMethod)
    (h : NewSPIFFEAuthMethod conf = (some j, none)) (ops : List Op) :
    j.credSuccessGate = false ∧
    ((∀ op ∈ ops, op ≠ Op.credSuccess) → (run j ops).credSuccessGate = false) ∧
    (CredSuccess (run j ops)).credSuccessGate = true ∧
    (∀ (s : spiffeMethod) (n : Nat), CredSuccessTimes s (n + 1) = CredSuccess s) ∧
    (∀ s : spiffeMethod, CredSuccess (CredSuccess s) = CredSuccess s) ∧
    (∀ (s : spiffeMethod) (op : Op), s.credSuccessGate = true →
      (op.apply s).credSuccessGate = true) ∧
    (∀ s : spiffeMethod,
      { CredSuccess s with once := s.once, credSuccessGate := s.credSuccessGate } = s) := by
  have hinit := new_engine_init conf j h
  refine ⟨hinit.2.1, fun hops => run_gate_closed ops j hops hinit.2.1, ?_,
    fun s n => credSuccessTimes_succ n s, credSuccess_twice, apply_gate_open, ?_⟩
  · have hinv := run_gate_once ops j (by rw [hinit.2.1, hinit.2.2.1])
    cases ho : (run j ops).once with
    | true =>
      rw [ho] at hinv
      simp [CredSuccess, ho, ← hinv]
    | false => simp [CredSuccess, ho]
  · intro s
    rcases s with ⟨mp, r, a, cf, st, dn, g, o, t, tk⟩
    cases o <;> simp [CredSuccess]

/-- The engine of the test: closed at first, open after a fetch and `CredSuccess`. -/
theorem credSuccess_gate_witness :
    (⟨"spiffe", "test-role", "test-audience", 0, false, false, false, false, "",
        some ⟨10, false⟩⟩ : spiffeMethod).credSuccessGate = false ∧
    (CredSuccess (run
        ⟨"spiffe", "test-role", "test-audience", 0, false, false, false, false, "",
          some ⟨10, false⟩⟩
        [Op.fetch (.ok "test-token")])).credSuccessGate = true :=
  have w := credSuccess_gate
    (some ⟨"spiffe", some [("role", Value.str "test-role"),
      ("audience", Value.str "test-audience")]⟩)
    ⟨"spiffe", "test-role", "test-audience", 0, false, false, false, false, "",
      some ⟨10, false⟩⟩
    (by decide) [Op.fetch (.ok "test-token")]
  ⟨w.1, w.2.2.1⟩

end VaultAuthSpiffe
